import Mathlib

/-!
Shallow embedding of the commute-weighted total-cost engine of
`src/app.py` (life-cost calculator), together with proofs of the
specified properties.

Machine floats of the source are modelled by `ℚ` (all the constants the
properties use, such as 4.33, are exactly representable), Python's
`int | None` optionals by `Option`, and raising by `Except.error`.
-/

namespace LifeCost

/-- `WEEKS_PER_MONTH = 4.33` (src/app.py line 18). -/
def WEEKS_PER_MONTH : ℚ := 4.33

/-! ## Route payloads

A Routes-API response payload, restricted to the fields the engine
reads.  `routes = []` models both a missing `routes` key and an empty
list (both are falsy for `data.get("routes")`).  `error` models
`payload["error"]["message"]` when that is a dict holding a string
message, `error_message` the legacy flat field, `status` the `status`
key the retry code writes. -/

/-- A JSON value sitting in a route's `duration` field: either a string
or some non-string value (the code only distinguishes these two cases). -/
inductive JsonDur where
  | str (s : String)
  | nonstr
deriving DecidableEq

/-- `travelAdvisory.transitFare` object: `currencyCode`, `units`, `nanos`,
each possibly absent. -/
structure TransitFare where
  currencyCode : Option String
  units : Option ℚ
  nanos : Option ℚ
deriving DecidableEq

/-- One element of the payload's `routes` array, restricted to the fields
`parse_route` reads. `transitFare = none` models a missing
`travelAdvisory`, a falsy one, and a non-dict `transitFare` alike. -/
structure Route where
  duration : Option JsonDur
  transitFare : Option TransitFare
deriving DecidableEq

/-- A Routes API response payload as the retry and parsing code see it. -/
structure RouteData where
  routes : List Route
  error : Option String
  error_message : Option String
  status : Option String
deriving DecidableEq

/-- `extract_error_message` (src/app.py lines 65-75): prefer
`error.message`, fall back to `error_message`, else `""`. -/
def extract_error_message (payload : RouteData) : String :=
  match payload.error with
  | some msg => msg
  | none => payload.error_message.getD ""

/-! ## Retry policy

`transit_route_with_retry` (src/app.py lines 195-224).  The network call
`routes_compute_transit` is abstracted as a `provider` function from the
queried time mode to the payload it returns; the coordinates, timestamp
and API key are fixed throughout one resolution and therefore folded
into the provider. -/

/-- The `time_mode` argument of `routes_compute_transit`. -/
inductive TimeMode where
  | departure
  | arrival
deriving DecidableEq

/-- `data.setdefault("status", "OK")`. -/
def setdefault_status (d : RouteData) : RouteData :=
  match d.status with
  | some _ => d
  | none => RouteData.mk d.routes d.error d.error_message (some "OK")

/-- `transit_route_with_retry` (src/app.py lines 195-224): query with
`departure`, on an empty `routes` list re-query with `arrival`; on double
failure set `status` to `"ERROR"` (copying out the extractable message)
or `"NO_ROUTES"`. -/
def transit_route_with_retry (provider : TimeMode → RouteData) :
    Bool × RouteData × String :=
  let data := provider TimeMode.departure
  if data.routes ≠ [] then
    (true, setdefault_status data, "routes_transit_departure")
  else
    let data2 := provider TimeMode.arrival
    if data2.routes ≠ [] then
      (true, setdefault_status data2, "routes_transit_arrival")
    else
      let err := extract_error_message data2
      if err ≠ "" then
        (false, RouteData.mk data2.routes data2.error (some err) (some "ERROR"),
          "routes_transit_arrival")
      else
        (false, RouteData.mk data2.routes data2.error data2.error_message
          (some "NO_ROUTES"), "routes_transit_arrival")

/-- The sequence of time modes `transit_route_with_retry` actually sends to
the provider, in order: it mirrors the control flow of src/app.py lines
206-211 (the second request is issued exactly when the first payload has
no routes). -/
def retry_trace (provider : TimeMode → RouteData) : List TimeMode :=
  let data := provider TimeMode.departure
  if data.routes ≠ [] then [TimeMode.departure]
  else [TimeMode.departure, TimeMode.arrival]

/-! ## Route parsing -/

/-- Value of a run of characters read as decimal digits, `none` when a
non-digit occurs (helper for `pyInt`). -/
def decDigitsAux : ℕ → List Char → Option ℕ
  | acc, [] => some acc
  | acc, c :: cs =>
    if c.isDigit then decDigitsAux (10 * acc + (c.toNat - 48)) cs else none

/-- Python's `int()` applied to a decimal string: an optional sign followed
by at least one digit, `none` (a `ValueError`) otherwise.  The whitespace
and underscore forms `int` also tolerates are not modelled; no property
below depends on them. -/
def pyInt (s : String) : Option ℤ :=
  match s.toList with
  | [] => none
  | '+' :: cs =>
    match cs with
    | [] => none
    | _ => (decDigitsAux 0 cs).map Int.ofNat
  | '-' :: cs =>
    match cs with
    | [] => none
    | _ => (decDigitsAux 0 cs).map (fun n => -(n : ℤ))
  | cs => (decDigitsAux 0 cs).map Int.ofNat

/-- Python's `round()` on an exact value: nearest integer, halves to the
even neighbour (banker's rounding). -/
def pyRound (q : ℚ) : ℤ :=
  let f := ⌊q⌋
  let frac := q - f
  if frac < 1 / 2 then f
  else if 1 / 2 < frac then f + 1
  else if f % 2 = 0 then f else f + 1

/-- Seconds read from a route's `duration` field (src/app.py lines
179-180): default `"0s"`; a non-string or a string without the trailing
`"s"` gives 0; otherwise `int()` of the string with its last character
cut off, which raises (`ValueError`) on a malformed numeral. -/
def parse_seconds (d : Option JsonDur) : Except String ℤ :=
  match d.getD (JsonDur.str "0s") with
  | JsonDur.nonstr => Except.ok 0
  | JsonDur.str s =>
    -- `dur.endswith("s")` and `dur[:-1]`, on the character list
    match s.data.getLast? with
    | some c =>
      if c = 's' then
        match pyInt (String.mk s.data.dropLast) with
        | none => Except.error "ValueError: invalid literal for int()"
        | some n => Except.ok n
      else Except.ok 0
    | none => Except.ok 0

/-- Fare read from a route's `travelAdvisory.transitFare` (src/app.py
lines 183-189): present only when `currencyCode == "JPY"`, as
`units + nanos / 1e9`. -/
def parse_fare (tfo : Option TransitFare) : Option ℚ :=
  match tfo with
  | none => none
  | some tf =>
    if tf.currencyCode = some "JPY" then
      some (tf.units.getD 0 + tf.nanos.getD 0 / 10 ^ 9)
    else none

/-- `parse_route` (src/app.py lines 167-192).  Raises when the payload has
no routes; minutes = `max(0, round(seconds / 60))` from the first route's
duration; the fare only for a JPY `transitFare`; the summary always `""`. -/
def parse_route (data : RouteData) : Except String (ℤ × Option ℚ × String) :=
  match data.routes with
  | [] => Except.error "Routes API 未返回 routes。"
  | r0 :: _ =>
    match parse_seconds r0.duration with
    | Except.error e => Except.error e
    | Except.ok seconds =>
      Except.ok (max 0 (pyRound ((seconds : ℚ) / 60)), parse_fare r0.transitFare, "")

/-! ## Weighted merge -/

/-- Accumulator of `weighted_merge`: the four running sums of src/app.py
lines 232-236. -/
structure MergeAcc where
  w_total : ℚ
  minutes_total : ℚ
  fare_w_total : ℚ
  fare_total : ℚ
deriving DecidableEq

/-- One of the two symmetric accumulation blocks of `weighted_merge`
(src/app.py lines 238-250): a pair contributes when it succeeded, has
positive weight and carries a duration; its fare contributes to the fare
sums only when present. -/
def merge_step (acc : MergeAcc) (ok : Bool) (minutes : Option ℤ)
    (fare : Option ℚ) (w : ℚ) : MergeAcc :=
  if ok = true ∧ 0 < w ∧ minutes.isSome then
    MergeAcc.mk (acc.w_total + w)
      (acc.minutes_total + ((minutes.getD 0 : ℤ) : ℚ) * w)
      (acc.fare_w_total + (if fare.isSome then w else 0))
      (acc.fare_total + fare.getD 0 * w)
  else acc

/-- `weighted_merge` (src/app.py lines 227-257): weighted average one-way
minutes over the contributing pairs, weighted average fare over the
sub-subset that also has a fare (else `none`); raises when the total
weight is not positive. -/
def weighted_merge (a_ok : Bool) (a_minutes : Option ℤ) (a_fare : Option ℚ)
    (a_w : ℚ) (b_ok : Bool) (b_minutes : Option ℤ) (b_fare : Option ℚ)
    (b_w : ℚ) : Except String (ℚ × Option ℚ) :=
  let acc1 := merge_step (MergeAcc.mk 0 0 0 0) a_ok a_minutes a_fare a_w
  let acc2 := merge_step acc1 b_ok b_minutes b_fare b_w
  if acc2.w_total ≤ 0 then
    Except.error "A/B 都没有可用的公共交通结果，无法加权。"
  else
    Except.ok (acc2.minutes_total / acc2.w_total,
      if 0 < acc2.fare_w_total then some (acc2.fare_total / acc2.fare_w_total)
      else none)

/-! ## Cost aggregation per listing row -/

/-- One row of the listings table, restricted to the columns
`row_total_cost` reads.  Every column is optional because the code reads
each with `row.get(column, default)`; the name column is carried along
(it is only displayed, never used in a computation). -/
structure ListingRow where
  name : Option String
  rent : Option ℚ
  mgmt_fee : Option ℚ
  utilities : Option ℚ
  phone : Option ℚ
  food : Option ℚ
  misc : Option ℚ
  commute_minutes_oneway : Option ℚ
  commute_fare_oneway : Option ℚ
  freqA : Option ℚ
  freqB : Option ℚ
deriving DecidableEq

/-- The six figures `row_total_cost` returns, with the field names spelling
out the tuple positions of src/app.py line 487. -/
structure CostRow where
  fixed : ℚ
  commute_cost : ℚ
  cash_total : ℚ
  commute_minutes : ℚ
  time_cost : Option ℚ
  total_with_time : Option ℚ
deriving DecidableEq

/-- `row_total_cost` (src/app.py lines 457-487): fixed = sum of the six
recurring columns (default 0); weights = weekly frequencies (defaults 1.0
and 0.5) times `WEEKS_PER_MONTH`; commute figures = one-way value × total
monthly one-way count × 2 (round trip); cash total = fixed + commute cost;
when a time value (yen per hour) is supplied, time cost = commute hours ×
rate and a combined total is also produced. -/
def row_total_cost (row : ListingRow) (time_value_yph : Option ℚ) : CostRow :=
  let fixed := row.rent.getD 0 + row.mgmt_fee.getD 0 + row.utilities.getD 0
    + row.phone.getD 0 + row.food.getD 0 + row.misc.getD 0
  let a_w := row.freqA.getD 1 * WEEKS_PER_MONTH
  let b_w := row.freqB.getD (1 / 2) * WEEKS_PER_MONTH
  let monthly_oneway_total := a_w + b_w
  let one_way_minutes := row.commute_minutes_oneway.getD 0
  let one_way_fare := row.commute_fare_oneway.getD 0
  let monthly_commute_minutes := one_way_minutes * monthly_oneway_total * 2
  let monthly_commute_cost := one_way_fare * monthly_oneway_total * 2
  let cash_total := fixed + monthly_commute_cost
  match time_value_yph with
  | none =>
    CostRow.mk fixed monthly_commute_cost cash_total monthly_commute_minutes
      none none
  | some tv =>
    let time_cost := monthly_commute_minutes / 60 * tv
    CostRow.mk fixed monthly_commute_cost cash_total monthly_commute_minutes
      (some time_cost) (some (cash_total + time_cost))

/-! ## Ranking -/

/-- The sort key selected on src/app.py line 505: the cash+time grand
total when a time value is supplied, the cash grand total otherwise. -/
def sort_key (time_value : Option ℚ) (row : ListingRow) : ℚ :=
  let c := row_total_cost row time_value
  match time_value with
  | some _ => c.total_with_time.getD 0
  | none => c.cash_total

/-- The guarantee of `df.sort_values(by=sort_col, ascending=True)`
(src/app.py line 506) under its default `kind="quicksort"`: the output
rows are the input rows in some order (a permutation — no row dropped or
duplicated) that is non-decreasing in the sort column.  The default
quicksort is documented as not stable, so the order of rows with equal
keys is not constrained further. -/
def sort_values_spec (key : ListingRow → ℚ) (l out : List ListingRow) : Prop :=
  List.Pairwise (fun x y => key x ≤ key y) out ∧ List.Perm out l

/-! ## Components present in the wider repository but not in `src/app.py`

The specification's CommutePricer pass-vs-pay-per-ride choice and the
CostAggregator's amortization of one-time move-in costs over the tenancy
are described as living in the repository's other near-duplicate copies;
`src/app.py` (the one copy available here) prices commuting pay-per-ride
only and has no one-time-cost column.  They are modelled from the
specification's words below. -/

/-- Modelled from the spec: `CommutePricer.price` (§4.3), absent from
src/app.py.  `monthlyVisits` is already round-trip adjusted.  Pay-per-ride
cost = fare × visits; a supplied, strictly positive pass price caps it at
`min(payPerRide, passPrice)`, with the choice exposed as an advisory
label; an absent fare degrades to the pass price when present, else 0,
with a warning flag instead of an exception. -/
def CommutePricer_price (oneWayFare : Option ℚ) (monthlyVisits : ℚ)
    (passPrice : Option ℚ) : ℚ × String × Bool :=
  match oneWayFare with
  | some fare =>
    let payPerRide := fare * monthlyVisits
    match passPrice with
    | some p =>
      if 0 < p then
        if p ≤ payPerRide then (p, "pass", false)
        else (payPerRide, "pay_per_ride", false)
      else (payPerRide, "pay_per_ride", false)
    | none => (payPerRide, "pay_per_ride", false)
  | none =>
    match passPrice with
    | some p => if 0 < p then (p, "pass", true) else (0, "pay_per_ride", true)
    | none => (0, "pay_per_ride", true)

/-- Modelled from the spec: the CostAggregator's amortized one-time share
(§4.4, §7), absent from src/app.py.  One-time move-in total divided by the
tenancy length in months; a tenancy of zero months is the configuration
error `InvalidTenancy`, never a division. -/
def amortized_one_time_share (oneTimeTotal : ℚ) (tenancyMonths : ℕ) :
    Except String ℚ :=
  if tenancyMonths = 0 then Except.error "InvalidTenancy"
  else Except.ok (oneTimeTotal / (tenancyMonths : ℚ))

/-! ## Helper lemmas -/

/-- Rounding an integer value returns it unchanged. -/
lemma pyRound_intCast (n : ℤ) : pyRound ((n : ℤ) : ℚ) = n := by
  unfold pyRound
  simp [Int.floor_intCast]

/-- Rounding zero gives zero. -/
lemma pyRound_zero : pyRound (0 : ℚ) = 0 := by
  have h := pyRound_intCast 0
  simpa using h

/-! ## Claims -/

/-- The listing row of the end-to-end scenario: rent 90,000, the five
other recurring fees summing to 73,000, a single destination (A) visited
5 times a week at one-way fare 200 and one-way duration 30 minutes,
destination B unused. -/
def c5_listing : ListingRow :=
  ListingRow.mk (some "案例房源") (some 90000) (some 10000) (some 12000)
    (some 3000) (some 40000) (some 8000) (some 30) (some 200) (some 5) (some 0)

/-- C5: for the scenario candidate (rent 90,000, other fixed fees summing
to 73,000, one-time cost 0, tenancy 24, one destination at 5 visits/week,
fare 200, duration 30, no pass): monthly one-way visits are 5 × 4.33 =
21.65, round-trip-adjusted 43.3, commute cost 200 × 43.3 = 8,660, fixed
total 163,000, cash grand total 171,660 (the zero one-time cost amortizes
to zero). -/
theorem end_to_end_scenario_cash_total :
    (5 : ℚ) * WEEKS_PER_MONTH = 21.65 ∧
    (5 : ℚ) * WEEKS_PER_MONTH * 2 = 43.3 ∧
    (row_total_cost c5_listing none).fixed = 163000 ∧
    (row_total_cost c5_listing none).commute_cost = 200 * 43.3 ∧
    (row_total_cost c5_listing none).commute_cost = 8660 ∧
    (row_total_cost c5_listing none).cash_total = 171660 ∧
    amortized_one_time_share 0 24 = Except.ok 0 ∧
    (row_total_cost c5_listing none).cash_total + 0 = 171660 := by
  norm_num [row_total_cost, WEEKS_PER_MONTH, amortized_one_time_share, c5_listing]

/-- C2: with a supplied, strictly positive pass price the chosen monthly
commute cost is `min(payPerRide, passPrice)`, otherwise it is the
pay-per-ride product; the pay-per-ride-only path is exactly what
`row_total_cost` computes; and on fare 400, round-trip visits 43.3, pass
10,000 the pay-per-ride cost is 17,320, so the pass wins with the "pass"
advisory. -/
theorem commute_pricer_min_pass (fare visits p : ℚ) :
    (0 < p →
      (CommutePricer_price (some fare) visits (some p)).1 = min (fare * visits) p) ∧
    (¬0 < p →
      (CommutePricer_price (some fare) visits (some p)).1 = fare * visits) ∧
    (CommutePricer_price (some fare) visits none).1 = fare * visits ∧
    (∀ row : ListingRow, (row_total_cost row none).commute_cost
      = (CommutePricer_price (some (row.commute_fare_oneway.getD 0))
          ((row.freqA.getD 1 * WEEKS_PER_MONTH
            + row.freqB.getD (1 / 2) * WEEKS_PER_MONTH) * 2) none).1) ∧
    (400 : ℚ) * 43.3 = 17320 ∧
    CommutePricer_price (some 400) 43.3 (some 10000) = (10000, "pass", false) := by
  refine ⟨fun hp => ?_, fun hp => ?_, rfl, fun row => ?_, by norm_num, ?_⟩
  · by_cases hle : p ≤ fare * visits
    · simp [CommutePricer_price, hp, hle, min_eq_right hle]
    · push_neg at hle
      simp [CommutePricer_price, hp, not_le.mpr hle, min_eq_left hle.le]
  · simp [CommutePricer_price, hp]
  · simp only [row_total_cost, CommutePricer_price]
    ring
  · norm_num [CommutePricer_price]

/-- Witness for C2 at the specified concrete inputs. -/
theorem commute_pricer_min_pass_witness :
    (0 : ℚ) < 10000 ∧
    (CommutePricer_price (some 400) 43.3 (some 10000)).1 = min (400 * 43.3) 10000 :=
  ⟨by norm_num, (commute_pricer_min_pass 400 43.3 10000).1 (by norm_num)⟩

/-- C3: for tenancyMonths ≥ 1 the amortized one-time share is the one-time
total divided by the tenancy exactly (240,000 over 24 months is 10,000 a
month), and tenancyMonths = 0 raises `InvalidTenancy` instead of
dividing. -/
theorem amortized_share_div_and_invalid_tenancy (oneTime : ℚ) (months : ℕ) :
    (1 ≤ months →
      amortized_one_time_share oneTime months = Except.ok (oneTime / (months : ℚ))) ∧
    amortized_one_time_share oneTime 0 = Except.error "InvalidTenancy" ∧
    amortized_one_time_share 240000 24 = Except.ok 10000 := by
  refine ⟨fun h => ?_, by simp [amortized_one_time_share], ?_⟩
  · have hne : months ≠ 0 := by omega
    simp [amortized_one_time_share, hne]
  · norm_num [amortized_one_time_share]

/-- Witness for C3 with the 240,000 / 24 instance. -/
theorem amortized_share_witness :
    1 ≤ 24 ∧
    amortized_one_time_share 240000 24 = Except.ok (240000 / ((24 : ℕ) : ℚ)) :=
  ⟨by norm_num, (amortized_share_div_and_invalid_tenancy 240000 24).1 (by norm_num)⟩

/-- C4: when the weight accumulated over succeeded positive-weight pairs
is zero, `weighted_merge` raises its explicit no-usable-commute-data
error instead of returning a number. -/
theorem weighted_merge_zero_weight_error (a_ok b_ok : Bool)
    (a_m b_m : Option ℤ) (a_f b_f : Option ℚ) (a_w b_w : ℚ)
    (h : (if a_ok = true ∧ 0 < a_w then a_w else 0)
      + (if b_ok = true ∧ 0 < b_w then b_w else 0) = 0) :
    weighted_merge a_ok a_m a_f a_w b_ok b_m b_f b_w
      = Except.error "A/B 都没有可用的公共交通结果，无法加权。" := by
  have hA : ¬(a_ok = true ∧ 0 < a_w) := by
    intro hc
    rw [if_pos hc] at h
    by_cases hc2 : b_ok = true ∧ 0 < b_w
    · rw [if_pos hc2] at h
      linarith [hc.2, hc2.2]
    · rw [if_neg hc2] at h
      linarith [hc.2]
  have hB : ¬(b_ok = true ∧ 0 < b_w) := by
    intro hc
    rw [if_neg hA, if_pos hc] at h
    linarith [hc.2]
  have sA : ¬(a_ok = true ∧ 0 < a_w ∧ a_m.isSome = true) :=
    fun hc => hA ⟨hc.1, hc.2.1⟩
  have sB : ¬(b_ok = true ∧ 0 < b_w ∧ b_m.isSome = true) :=
    fun hc => hB ⟨hc.1, hc.2.1⟩
  simp [weighted_merge, merge_step, sA, sB]

/-- Witness for C4: a failed pair with positive weight plus a succeeded
pair with zero weight accumulate zero weight and the merge errors. -/
theorem weighted_merge_zero_weight_error_witness :
    ((if (false = true ∧ (0 : ℚ) < 5) then (5 : ℚ) else 0)
      + (if (true = true ∧ (0 : ℚ) < 0) then (0 : ℚ) else 0) = 0) ∧
    weighted_merge false none none 5 true (some 10) (some 100) 0
      = Except.error "A/B 都没有可用的公共交通结果，无法加权。" :=
  ⟨by norm_num, weighted_merge_zero_weight_error false true none (some 10)
    none (some 100) 5 0 (by norm_num)⟩

/-- C1 counterexample: with a provider that never returns routes, the
policy issues exactly two queries (departure then arrival, both plain
TRANSIT) and stops — there are no strict/relaxed tiers 3 and 4, so on
total failure only 2 attempts are made, not 4, and the failure tag is the
second transit tier's. -/
theorem retry_not_four_tiers :
    retry_trace (fun _ => RouteData.mk [] none none none)
      = [TimeMode.departure, TimeMode.arrival] ∧
    (retry_trace (fun _ => RouteData.mk [] none none none)).length = 2 ∧
    (transit_route_with_retry (fun _ => RouteData.mk [] none none none)).2.2
      = "routes_transit_arrival" := by
  refine ⟨rfl, rfl, rfl⟩

/-- C1 (amended): the code has exactly two tiers — transit queried by
departure time, then transit queried by arrival time.  The first tier
whose payload carries routes wins, the returned tag names that tier, and
no query is issued after a success; only when both fail does the call
return a failure, tagged with the second tier. -/
theorem retry_two_tiers_first_success (p : TimeMode → RouteData) :
    ((transit_route_with_retry p).1 = true ↔
      (p TimeMode.departure).routes ≠ [] ∨ (p TimeMode.arrival).routes ≠ []) ∧
    ((p TimeMode.departure).routes ≠ [] →
      transit_route_with_retry p
        = (true, setdefault_status (p TimeMode.departure), "routes_transit_departure") ∧
      retry_trace p = [TimeMode.departure]) ∧
    ((p TimeMode.departure).routes = [] → (p TimeMode.arrival).routes ≠ [] →
      transit_route_with_retry p
        = (true, setdefault_status (p TimeMode.arrival), "routes_transit_arrival") ∧
      retry_trace p = [TimeMode.departure, TimeMode.arrival]) ∧
    ((p TimeMode.departure).routes = [] → (p TimeMode.arrival).routes = [] →
      (transit_route_with_retry p).1 = false ∧
      (transit_route_with_retry p).2.2 = "routes_transit_arrival") := by
  by_cases h1 : (p TimeMode.departure).routes = [] <;>
    by_cases h2 : (p TimeMode.arrival).routes = [] <;>
    by_cases h3 : extract_error_message (p TimeMode.arrival) = "" <;>
    simp [transit_route_with_retry, retry_trace, h1, h2, h3]

/-- Witness for C1 at a provider that fails on departure and succeeds on
arrival: the second tier's success is returned with its tag, after both
queries. -/
theorem retry_two_tiers_first_success_witness :
    transit_route_with_retry (fun m => match m with
        | TimeMode.departure => RouteData.mk [] none none none
        | TimeMode.arrival => RouteData.mk [Route.mk none none] none none none)
      = (true, setdefault_status (RouteData.mk [Route.mk none none] none none none),
          "routes_transit_arrival") ∧
    retry_trace (fun m => match m with
        | TimeMode.departure => RouteData.mk [] none none none
        | TimeMode.arrival => RouteData.mk [Route.mk none none] none none none)
      = [TimeMode.departure, TimeMode.arrival] :=
  (retry_two_tiers_first_success (fun m => match m with
      | TimeMode.departure => RouteData.mk [] none none none
      | TimeMode.arrival => RouteData.mk [Route.mk none none] none none none)).2.2.1
    rfl (by simp)

/-- C7 counterexample: a departure payload carrying a hard error message
(and no routes) does not propagate as a tier-1-tagged failure — the
arrival tier is still queried, and here even succeeds; so a hard error is
retried with a different time mode. -/
theorem hard_error_still_retried :
    extract_error_message ((fun m => match m with
        | TimeMode.departure =>
          RouteData.mk [] (some "API key not valid. Please pass a valid API key.") none none
        | TimeMode.arrival => RouteData.mk [Route.mk none none] none none none)
        TimeMode.departure) ≠ "" ∧
    retry_trace (fun m => match m with
        | TimeMode.departure =>
          RouteData.mk [] (some "API key not valid. Please pass a valid API key.") none none
        | TimeMode.arrival => RouteData.mk [Route.mk none none] none none none)
      = [TimeMode.departure, TimeMode.arrival] ∧
    (transit_route_with_retry (fun m => match m with
        | TimeMode.departure =>
          RouteData.mk [] (some "API key not valid. Please pass a valid API key.") none none
        | TimeMode.arrival => RouteData.mk [Route.mk none none] none none none)).1
      = true := by
  refine ⟨by decide, rfl, rfl⟩

/-- C7 (amended): the retry code never inspects error content before
advancing — whenever the departure payload has no routes the arrival mode
is queried, hard error or not; only after both tiers fail is the error
surfaced, with status `"ERROR"` when a message is extractable from the
arrival payload and `"NO_ROUTES"` otherwise, tagged with the second
tier. -/
theorem retry_advances_on_any_empty_routes (p : TimeMode → RouteData)
    (h1 : (p TimeMode.departure).routes = []) :
    retry_trace p = [TimeMode.departure, TimeMode.arrival] ∧
    ((p TimeMode.arrival).routes = [] →
      (transit_route_with_retry p).1 = false ∧
      (transit_route_with_retry p).2.2 = "routes_transit_arrival" ∧
      (transit_route_with_retry p).2.1.status =
        some (if extract_error_message (p TimeMode.arrival) = "" then "NO_ROUTES"
          else "ERROR")) := by
  constructor
  · simp [retry_trace, h1]
  · intro h2
    by_cases h3 : extract_error_message (p TimeMode.arrival) = "" <;>
      simp [transit_route_with_retry, h1, h2, h3]

/-- Witness for C7 at a provider whose two payloads are empty, the second
carrying a hard error message: both tiers run, the failure is tagged with
the second tier and surfaces the message as status ERROR. -/
theorem retry_advances_on_any_empty_routes_witness :
    retry_trace (fun _ => RouteData.mk [] (some "quota exceeded") none none)
      = [TimeMode.departure, TimeMode.arrival] ∧
    ((transit_route_with_retry (fun _ => RouteData.mk [] (some "quota exceeded") none none)).1
        = false ∧
      (transit_route_with_retry (fun _ => RouteData.mk [] (some "quota exceeded") none none)).2.2
        = "routes_transit_arrival" ∧
      (transit_route_with_retry (fun _ => RouteData.mk [] (some "quota exceeded") none none)).2.1.status
        = some (if extract_error_message
            ((fun _ => RouteData.mk [] (some "quota exceeded") none none) TimeMode.arrival) = ""
          then "NO_ROUTES" else "ERROR")) :=
  ⟨(retry_advances_on_any_empty_routes
      (fun _ => RouteData.mk [] (some "quota exceeded") none none) rfl).1,
    (retry_advances_on_any_empty_routes
      (fun _ => RouteData.mk [] (some "quota exceeded") none none) rfl).2 rfl⟩

/-- C9: when `parse_route` succeeds, the fare is present exactly for a
`transitFare` whose `currencyCode` is `"JPY"`, in which case it equals
`units + nanos / 1e9`; any other currency (or a missing fare object)
yields an absent fare. -/
theorem parse_route_fare_jpy_only (data : RouteData) (r0 : Route)
    (rest : List Route) (hr : data.routes = r0 :: rest) (m : ℤ)
    (f : Option ℚ) (s : String)
    (hok : parse_route data = Except.ok (m, f, s)) :
    (∀ tf, r0.transitFare = some tf → tf.currencyCode ≠ some "JPY" → f = none) ∧
    (r0.transitFare = none → f = none) ∧
    (∀ v, f = some v → ∃ tf, r0.transitFare = some tf ∧
      tf.currencyCode = some "JPY" ∧
      v = tf.units.getD 0 + tf.nanos.getD 0 / 10 ^ 9) := by
  have hf : f = parse_fare r0.transitFare := by
    simp only [parse_route, hr] at hok
    cases hps : parse_seconds r0.duration with
    | error e => rw [hps] at hok; exact absurd hok (by simp)
    | ok sec =>
      rw [hps] at hok
      simp only [Except.ok.injEq, Prod.mk.injEq] at hok
      exact hok.2.1.symm
  refine ⟨fun tf htf hne => ?_, fun htf => ?_, fun v hv => ?_⟩
  · rw [hf]
    simp [parse_fare, htf, hne]
  · rw [hf]
    simp [parse_fare, htf]
  · rw [hf] at hv
    cases htf : r0.transitFare with
    | none => rw [htf] at hv; exact absurd hv (by simp [parse_fare])
    | some tf =>
      rw [htf] at hv
      by_cases hc : tf.currencyCode = some "JPY"
      · refine ⟨tf, rfl, hc, ?_⟩
        simp [parse_fare, hc] at hv
        exact hv.symm
      · exact absurd hv (by simp [parse_fare, hc])

/-- Witness for C9 at a payload whose first route carries a USD fare of
3.5: parsing succeeds and the fare comes back absent. -/
theorem parse_route_fare_jpy_only_witness :
    (∀ tf, (Route.mk none (some (TransitFare.mk (some "USD") (some 3)
        (some 500000000)))).transitFare = some tf →
      tf.currencyCode ≠ some "JPY" → (none : Option ℚ) = none) ∧
    ((Route.mk none (some (TransitFare.mk (some "USD") (some 3)
        (some 500000000)))).transitFare = none → (none : Option ℚ) = none) ∧
    (∀ v, (none : Option ℚ) = some v →
      ∃ tf, (Route.mk none (some (TransitFare.mk (some "USD") (some 3)
          (some 500000000)))).transitFare = some tf ∧
        tf.currencyCode = some "JPY" ∧
        v = tf.units.getD 0 + tf.nanos.getD 0 / 10 ^ 9) :=
  parse_route_fare_jpy_only
    (RouteData.mk [Route.mk none (some (TransitFare.mk (some "USD") (some 3)
      (some 500000000)))] none none none)
    (Route.mk none (some (TransitFare.mk (some "USD") (some 3)
      (some 500000000)))) [] rfl 0 none ""
    (by
      have hp : pyInt "0" = some 0 := rfl
      simp [parse_route, parse_seconds, parse_fare, hp, pyRound_zero])

/-- C10 counterexample: a payload with a non-empty routes list on which
`parse_route` still raises — the first route's duration `"abcs"` ends in
`"s"` but `int("abc")` is a `ValueError`; so raising is not equivalent to
the routes list being missing or empty, and this malformed duration does
not map to 0 minutes. -/
theorem parse_route_raises_on_malformed_duration :
    (RouteData.mk [Route.mk (some (JsonDur.str "abcs")) none] none none none).routes
      ≠ [] ∧
    parse_route (RouteData.mk [Route.mk (some (JsonDur.str "abcs")) none]
        none none none)
      = Except.error "ValueError: invalid literal for int()" := by
  refine ⟨by simp, rfl⟩

/-- C10 (amended): `parse_route` raises exactly when the routes list is
empty or the first route's duration is a string that ends in `"s"` whose
remaining prefix `int()` cannot parse; a duration that is missing, a
non-string, or a string not ending in `"s"` yields 0 minutes; and every
successful parse returns non-negative minutes, clamped via
`max(0, round(seconds / 60))`. -/
theorem parse_route_error_conditions (data : RouteData) :
    ((∃ e, parse_route data = Except.error e) ↔
      data.routes = [] ∨
      ∃ r0 rest s, data.routes = r0 :: rest ∧
        r0.duration.getD (JsonDur.str "0s") = JsonDur.str s ∧
        s.data.getLast? = some 's' ∧
        pyInt (String.mk s.data.dropLast) = none) ∧
    (∀ r0 rest, data.routes = r0 :: rest →
      (r0.duration = none ∨ r0.duration = some JsonDur.nonstr ∨
        (∃ s, r0.duration = some (JsonDur.str s) ∧ s.data.getLast? ≠ some 's')) →
      parse_route data = Except.ok (0, parse_fare r0.transitFare, "")) ∧
    (∀ m f s, parse_route data = Except.ok (m, f, s) → 0 ≤ m) := by
  have hsec : ∀ d : Option JsonDur, (∃ e, parse_seconds d = Except.error e) ↔
      ∃ s, d.getD (JsonDur.str "0s") = JsonDur.str s ∧
        s.data.getLast? = some 's' ∧
        pyInt (String.mk s.data.dropLast) = none := by
    intro d
    cases hd : d.getD (JsonDur.str "0s") with
    | nonstr => simp [parse_seconds, hd]
    | str s =>
      cases hl : s.data.getLast? with
      | none => simp [parse_seconds, hd, hl]
      | some c =>
        by_cases hc : c = 's'
        · subst hc
          cases hp : pyInt (String.mk s.data.dropLast) with
          | none => simp [parse_seconds, hd, hl, hp]
          | some n => simp [parse_seconds, hd, hl, hp]
        · simp [parse_seconds, hd, hl, hc]
  refine ⟨?_, ?_, ?_⟩
  · cases hr : data.routes with
    | nil => simp [parse_route, hr]
    | cons r0 rest =>
      constructor
      · rintro ⟨e, he⟩
        simp only [parse_route, hr] at he
        cases hps : parse_seconds r0.duration with
        | error e2 =>
          right
          obtain ⟨s, h1, h2, h3⟩ := (hsec r0.duration).mp ⟨e2, hps⟩
          exact ⟨r0, rest, s, rfl, h1, h2, h3⟩
        | ok sec => rw [hps] at he; exact absurd he (by simp)
      · rintro (h | ⟨r0', rest', s, hr', h1, h2, h3⟩)
        · exact List.noConfusion h
        · injection hr' with he1 he2
          subst he1
          obtain ⟨e, he⟩ := (hsec r0.duration).mpr ⟨s, h1, h2, h3⟩
          exact ⟨e, by simp [parse_route, hr, he]⟩
  · rintro r0 rest hr (hd | hd | ⟨s, hd, hl⟩)
    · have hps : parse_seconds r0.duration = Except.ok 0 := by
        rw [hd]; rfl
      simp [parse_route, hr, hps, pyRound_zero]
    · have hps : parse_seconds r0.duration = Except.ok 0 := by
        rw [hd]; rfl
      simp [parse_route, hr, hps, pyRound_zero]
    · have hps : parse_seconds r0.duration = Except.ok 0 := by
        rw [hd]
        cases hl2 : s.data.getLast? with
        | none => simp [parse_seconds, hl2]
        | some c =>
          have hc : ¬c = 's' := fun hcs => hl (by rw [hl2, hcs])
          simp [parse_seconds, hl2, hc]
      simp [parse_route, hr, hps, pyRound_zero]
  · intro m f s hok
    cases hr : data.routes with
    | nil => rw [parse_route, hr] at hok; exact absurd hok (by simp)
    | cons r0 rest =>
      simp only [parse_route, hr] at hok
      cases hps : parse_seconds r0.duration with
      | error e => rw [hps] at hok; exact absurd hok (by simp)
      | ok sec =>
        rw [hps] at hok
        simp only [Except.ok.injEq, Prod.mk.injEq] at hok
        rw [← hok.1]
        exact le_max_left 0 _

/-- Witness for C10 at a payload whose first route has no duration field:
parsing succeeds with 0 minutes. -/
theorem parse_route_error_conditions_witness :
    parse_route (RouteData.mk [Route.mk none none] none none none)
      = Except.ok (0, parse_fare none, "") :=
  (parse_route_error_conditions
    (RouteData.mk [Route.mk none none] none none none)).2.1
    (Route.mk none none) [] rfl (Or.inl rfl)

/-- The one-way durations of the pairs that contribute weight in
`weighted_merge`: succeeded pairs with strictly positive weight. -/
def contributing_durations (a_ok : Bool) (a_m : Option ℤ) (a_w : ℚ)
    (b_ok : Bool) (b_m : Option ℤ) (b_w : ℚ) : List ℚ :=
  (if a_ok = true ∧ 0 < a_w then [((a_m.getD 0 : ℤ) : ℚ)] else [])
    ++ (if b_ok = true ∧ 0 < b_w then [((b_m.getD 0 : ℤ) : ℚ)] else [])

/-- C8: when the total weight over succeeded positive-weight pairs is
strictly positive (durations being present on success, as `parse_route`
guarantees), `weighted_merge` succeeds and its weighted one-way duration
lies within [min, max] of the contributing durations. -/
theorem weighted_merge_avg_bounded (a_ok b_ok : Bool) (a_m b_m : Option ℤ)
    (a_f b_f : Option ℚ) (a_w b_w : ℚ)
    (hA : a_ok = true → a_m.isSome) (hB : b_ok = true → b_m.isSome)
    (hw : 0 < (if a_ok = true ∧ 0 < a_w then a_w else 0)
      + (if b_ok = true ∧ 0 < b_w then b_w else 0)) :
    ∃ avg fare, weighted_merge a_ok a_m a_f a_w b_ok b_m b_f b_w
        = Except.ok (avg, fare) ∧
      (∃ d ∈ contributing_durations a_ok a_m a_w b_ok b_m b_w, d ≤ avg) ∧
      (∃ d ∈ contributing_durations a_ok a_m a_w b_ok b_m b_w, avg ≤ d) := by
  by_cases hca : a_ok = true ∧ 0 < a_w <;> by_cases hcb : b_ok = true ∧ 0 < b_w
  · obtain ⟨am, ham⟩ := Option.isSome_iff_exists.mp (hA hca.1)
    obtain ⟨bm, hbm⟩ := Option.isSome_iff_exists.mp (hB hcb.1)
    subst ham
    subst hbm
    have hsA : a_ok = true ∧ 0 < a_w ∧ (some am).isSome = true := ⟨hca.1, hca.2, rfl⟩
    have hsB : b_ok = true ∧ 0 < b_w ∧ (some bm).isSome = true := ⟨hcb.1, hcb.2, rfl⟩
    have hwpos : 0 < a_w + b_w := add_pos hca.2 hcb.2
    simp only [weighted_merge, merge_step, if_pos hsA, if_pos hsB,
      contributing_durations, if_pos hca, if_pos hcb, Option.getD_some,
      zero_add, List.singleton_append]
    rw [if_neg (not_le.mpr hwpos)]
    refine ⟨_, _, rfl, ?_, ?_⟩
    · rcases le_total ((am : ℤ) : ℚ) ((bm : ℤ) : ℚ) with hab | hab
      · refine ⟨((am : ℤ) : ℚ), by simp, ?_⟩
        rw [le_div_iff₀ hwpos, mul_add]
        have h1 := mul_le_mul_of_nonneg_right hab hcb.2.le
        linarith
      · refine ⟨((bm : ℤ) : ℚ), by simp, ?_⟩
        rw [le_div_iff₀ hwpos, mul_add]
        have h1 := mul_le_mul_of_nonneg_right hab hca.2.le
        linarith
    · rcases le_total ((am : ℤ) : ℚ) ((bm : ℤ) : ℚ) with hab | hab
      · refine ⟨((bm : ℤ) : ℚ), by simp, ?_⟩
        rw [div_le_iff₀ hwpos, mul_add]
        have h1 := mul_le_mul_of_nonneg_right hab hca.2.le
        linarith
      · refine ⟨((am : ℤ) : ℚ), by simp, ?_⟩
        rw [div_le_iff₀ hwpos, mul_add]
        have h1 := mul_le_mul_of_nonneg_right hab hcb.2.le
        linarith
  · obtain ⟨am, ham⟩ := Option.isSome_iff_exists.mp (hA hca.1)
    subst ham
    have hsA : a_ok = true ∧ 0 < a_w ∧ (some am).isSome = true := ⟨hca.1, hca.2, rfl⟩
    have hsB : ¬(b_ok = true ∧ 0 < b_w ∧ b_m.isSome = true) :=
      fun hc => hcb ⟨hc.1, hc.2.1⟩
    have havg : ((am : ℤ) : ℚ) * a_w / a_w = ((am : ℤ) : ℚ) :=
      mul_div_cancel_right₀ _ (ne_of_gt hca.2)
    simp only [weighted_merge, merge_step, if_pos hsA, if_neg hsB,
      contributing_durations, if_pos hca, if_neg hcb, Option.getD_some,
      zero_add, List.append_nil]
    rw [if_neg (not_le.mpr hca.2)]
    exact ⟨_, _, rfl, ⟨((am : ℤ) : ℚ), by simp, by rw [havg]⟩,
      ⟨((am : ℤ) : ℚ), by simp, by rw [havg]⟩⟩
  · obtain ⟨bm, hbm⟩ := Option.isSome_iff_exists.mp (hB hcb.1)
    subst hbm
    have hsA : ¬(a_ok = true ∧ 0 < a_w ∧ a_m.isSome = true) :=
      fun hc => hca ⟨hc.1, hc.2.1⟩
    have hsB : b_ok = true ∧ 0 < b_w ∧ (some bm).isSome = true := ⟨hcb.1, hcb.2, rfl⟩
    have havg : ((bm : ℤ) : ℚ) * b_w / b_w = ((bm : ℤ) : ℚ) :=
      mul_div_cancel_right₀ _ (ne_of_gt hcb.2)
    simp only [weighted_merge, merge_step, if_pos hsB, if_neg hsA,
      contributing_durations, if_pos hcb, if_neg hca, Option.getD_some,
      zero_add, List.nil_append]
    rw [if_neg (not_le.mpr hcb.2)]
    exact ⟨_, _, rfl, ⟨((bm : ℤ) : ℚ), by simp, by rw [havg]⟩,
      ⟨((bm : ℤ) : ℚ), by simp, by rw [havg]⟩⟩
  · exfalso
    rw [if_neg hca, if_neg hcb] at hw
    linarith

/-- Witness for C8 at two succeeded pairs (30 min at weight 2, 60 min at
weight 1). -/
theorem weighted_merge_avg_bounded_witness :
    (0 : ℚ) < (if (true = true ∧ (0 : ℚ) < 2) then (2 : ℚ) else 0)
      + (if (true = true ∧ (0 : ℚ) < 1) then (1 : ℚ) else 0) ∧
    ∃ avg fare, weighted_merge true (some 30) (some 200) 2 true (some 60) none 1
        = Except.ok (avg, fare) ∧
      (∃ d ∈ contributing_durations true (some 30) 2 true (some 60) 1, d ≤ avg) ∧
      (∃ d ∈ contributing_durations true (some 30) 2 true (some 60) 1, avg ≤ d) :=
  ⟨by norm_num, weighted_merge_avg_bounded true true (some 30) (some 60)
    (some 200) none 2 1 (fun _ => rfl) (fun _ => rfl) (by norm_num)⟩

/-- The two candidates of the ranking scenario: grand totals 171,660
(the end-to-end scenario numbers) and 165,000. -/
def rank_row_expensive : ListingRow :=
  ListingRow.mk (some "浅草1K") (some 90000) (some 10000) (some 12000)
    (some 3000) (some 40000) (some 8000) (some 30) (some 200) (some 5) (some 0)

/-- The cheaper candidate: fixed costs 165,000 and no commuting. -/
def rank_row_cheap : ListingRow :=
  ListingRow.mk (some "西日暮里1R") (some 165000) (some 0) (some 0) (some 0)
    (some 0) (some 0) (some 0) (some 0) (some 0) (some 0)

/-- C6 counterexample: the sort the code requests
(`sort_values` under its default, non-stable quicksort) admits an output
for two candidates with equal grand totals that reverses their input
order while being sorted and a permutation — so tie-breaking by original
input order is not guaranteed by the code. -/
theorem rank_tie_order_not_stable :
    sort_values_spec (sort_key none)
      [ListingRow.mk (some "甲") (some 100000) (some 0) (some 0) (some 0)
        (some 0) (some 0) (some 0) (some 0) (some 0) (some 0),
       ListingRow.mk (some "乙") (some 100000) (some 0) (some 0) (some 0)
        (some 0) (some 0) (some 0) (some 0) (some 0) (some 0)]
      [ListingRow.mk (some "乙") (some 100000) (some 0) (some 0) (some 0)
        (some 0) (some 0) (some 0) (some 0) (some 0) (some 0),
       ListingRow.mk (some "甲") (some 100000) (some 0) (some 0) (some 0)
        (some 0) (some 0) (some 0) (some 0) (some 0) (some 0)] ∧
    [ListingRow.mk (some "乙") (some 100000) (some 0) (some 0) (some 0)
        (some 0) (some 0) (some 0) (some 0) (some 0) (some 0),
     ListingRow.mk (some "甲") (some 100000) (some 0) (some 0) (some 0)
        (some 0) (some 0) (some 0) (some 0) (some 0) (some 0)]
      ≠ [ListingRow.mk (some "甲") (some 100000) (some 0) (some 0) (some 0)
        (some 0) (some 0) (some 0) (some 0) (some 0) (some 0),
       ListingRow.mk (some "乙") (some 100000) (some 0) (some 0) (some 0)
        (some 0) (some 0) (some 0) (some 0) (some 0) (some 0)] := by
  refine ⟨⟨?_, List.Perm.swap _ _ _⟩, by decide⟩
  · simp only [List.pairwise_cons, List.mem_singleton,
      List.not_mem_nil, forall_eq]
    refine ⟨?_, by simp⟩
    norm_num [sort_key, row_total_cost, WEEKS_PER_MONTH]

/-- C6 (amended): the ranking sorts ascending by the selected grand total
and drops no candidate (the output is a permutation of the input), and of
two candidates with grand totals 171,660 and 165,000 the second always
ranks first; the order of candidates with equal totals, however, is not
guaranteed (the code requests pandas' default quicksort, which is not
stable). -/
theorem rank_sorted_no_drop (out : List ListingRow) :
    (∀ key l o, sort_values_spec key l o → o.length = l.length) ∧
    (row_total_cost rank_row_expensive none).cash_total = 171660 ∧
    (row_total_cost rank_row_cheap none).cash_total = 165000 ∧
    (sort_values_spec (sort_key none) [rank_row_expensive, rank_row_cheap] out →
      out = [rank_row_cheap, rank_row_expensive]) := by
  have hkE : sort_key none rank_row_expensive = 171660 := by
    norm_num [sort_key, row_total_cost, rank_row_expensive, WEEKS_PER_MONTH]
  have hkC : sort_key none rank_row_cheap = 165000 := by
    norm_num [sort_key, row_total_cost, rank_row_cheap, WEEKS_PER_MONTH]
  refine ⟨fun key l o h => h.2.length_eq, ?_, ?_, ?_⟩
  · norm_num [row_total_cost, rank_row_expensive, WEEKS_PER_MONTH]
  · norm_num [row_total_cost, rank_row_cheap, WEEKS_PER_MONTH]
  · rintro ⟨hs, hp⟩
    have hl : out.length = 2 := by simpa using hp.length_eq
    rcases out with _ | ⟨x, _ | ⟨y, _ | ⟨z, zs⟩⟩⟩
    · simp at hl
    · simp at hl
    case cons.cons.cons => simp at hl
    · have hx : x ∈ [rank_row_expensive, rank_row_cheap] :=
        hp.subset (by simp)
      rcases List.mem_pair.mp hx with hxE | hxC
      · subst hxE
        have hy : y = rank_row_cheap := by
          have h2 := hp.cons_inv
          simpa using List.perm_singleton.mp h2
        subst hy
        exfalso
        have hle : sort_key none rank_row_expensive ≤ sort_key none rank_row_cheap := by
          have := List.pairwise_cons.mp hs
          exact this.1 _ (by simp)
        rw [hkE, hkC] at hle
        norm_num at hle
      · subst hxC
        have hy : y = rank_row_expensive := by
          have h2 := List.cons_perm_iff_perm_erase.mp hp
          have he : [rank_row_expensive, rank_row_cheap].erase rank_row_cheap
              = [rank_row_expensive] := by decide
          rw [he] at h2
          simpa using List.perm_singleton.mp h2.2
        subst hy
        rfl

/-- Witness for C6: the correctly ordered output satisfies the sort
contract and is the unique ranking of the two scenario candidates. -/
theorem rank_sorted_no_drop_witness :
    sort_values_spec (sort_key none) [rank_row_expensive, rank_row_cheap]
      [rank_row_cheap, rank_row_expensive] ∧
    [rank_row_cheap, rank_row_expensive] = [rank_row_cheap, rank_row_expensive] := by
  have hspec : sort_values_spec (sort_key none)
      [rank_row_expensive, rank_row_cheap]
      [rank_row_cheap, rank_row_expensive] := by
    constructor
    · simp only [List.pairwise_cons, List.mem_singleton,
        List.not_mem_nil, forall_eq]
      refine ⟨?_, by simp⟩
      norm_num [sort_key, row_total_cost, rank_row_cheap, rank_row_expensive,
        WEEKS_PER_MONTH]
    · exact List.Perm.swap _ _ _
  exact ⟨hspec, (rank_sorted_no_drop [rank_row_cheap, rank_row_expensive]).2.2.2 hspec⟩

end LifeCost
